import Mathlib

deriving instance DecidableEq for Except

/-!
Verification development for the IFRS9 loan-staging and provisioning backend.

The Python source is embedded shallowly:
* monetary amounts and Python numbers (`float` / `Decimal`) are modelled as
  exact rationals (`Rat`);
* days-past-due values (`ndia`) are integers (`Int`), nullable columns are
  `Option`;
* Python exceptions become `Except` / explicit error constructors;
* the commit-per-page database loop of the ORM stagers becomes explicit
  recursion over a list of pages, with an optional injected failure index
  standing for an exception raised while processing a page.

Helper functions imported by the routes from `app.calculators` are not part
of the five embedded source files; those are modelled from the specification
and marked as such in their doc comments.
-/

namespace IFRS9

/-- Rounding of a rational to the nearest integer, halves to even: the rule
used by Python `round` / `Decimal` quantisation (`ROUND_HALF_EVEN`). -/
def roundHalfEven (q : Rat) : Int :=
  let f : Int := ⌊q⌋
  let r : Rat := q - f
  if r < 1 / 2 then f
  else if 1 / 2 < r then f + 1
  else if f % 2 = 0 then f else f + 1

/-- Python `round(x, nd)` on an exact rational. -/
def pyRound (q : Rat) (nd : Nat) : Rat :=
  ((roundHalfEven (q * 10 ^ nd) : Int) : Rat) / 10 ^ nd

/-- Python `int(x)` applied to a number: truncation toward zero. -/
def pyTruncInt (q : Rat) : Int :=
  if 0 ≤ q then ⌊q⌋ else ⌈q⌉

/-- Value of an ASCII digit character, `none` for any other character. -/
def digitVal (c : Char) : Option Nat :=
  if '0' ≤ c ∧ c ≤ '9' then some (c.toNat - '0'.toNat) else none

/-- The ASCII whitespace characters CPython `int()` strips from both ends
of its string argument. -/
def isPySpace (c : Char) : Bool :=
  c = ' ' ∨ c = '\t' ∨ c = '\n' ∨ c = '\r' ∨ c = '\x0b' ∨ c = '\x0c'

/-- Strip leading and trailing whitespace, as CPython `int()` does. -/
def stripPySpaces (cs : List Char) : List Char :=
  ((cs.dropWhile isPySpace).reverse.dropWhile isPySpace).reverse

/-- Accumulating decimal read of the characters after the first digit:
CPython allows a single underscore between two digits (never doubled,
never trailing) and fails on anything else. -/
def pyDigitsGo : List Char → Nat → Option Nat
  | [], acc => some acc
  | ['_'], _ => none
  | '_' :: c :: rest, acc =>
    match digitVal c with
    | some d => pyDigitsGo rest (acc * 10 + d)
    | none => none
  | c :: rest, acc =>
    match digitVal c with
    | some d => pyDigitsGo rest (acc * 10 + d)
    | none => none

/-- Decimal read of a full digit group: must start with a digit (so a
leading underscore fails). -/
def pyDigitsOf : List Char → Option Nat
  | [] => none
  | c :: rest =>
    match digitVal c with
    | some d => pyDigitsGo rest d
    | none => none

/-- Python `int(s)` on a character list: surrounding whitespace is
stripped, then an optional sign directly precedes at least one ASCII
digit, with single underscores allowed between digits.  (Unicode digits
and non-ASCII whitespace accepted by CPython are not modelled.) -/
def pyIntOfChars (cs : List Char) : Option Int :=
  match stripPySpaces cs with
  | '-' :: rest => (pyDigitsOf rest).map (fun n => -(n : Int))
  | '+' :: rest => (pyDigitsOf rest).map (fun n => (n : Int))
  | t => (pyDigitsOf t).map (fun n => (n : Int))

/-- Python `int(s)` on a string. -/
def pyInt? (s : String) : Option Int :=
  pyIntOfChars s.data

/-- Python `s.split("-")` on a character list. -/
def splitOnDash : List Char → List (List Char)
  | [] => [[]]
  | c :: rest =>
    let r := splitOnDash rest
    if c = '-' then [] :: r
    else
      match r with
      | h :: t => (c :: h) :: t
      | [] => [[c]]

/-- The two `ValueError` shapes raised by `parse_days_range`
(`app/utils/staging.py`): the explicit `Invalid days range format: {s}`
message, and the error propagated from a failing `int(...)` conversion,
which names only the component that failed to convert. -/
inductive RangeError where
  | invalidFormat (s : String)
  | intConversion (s : String)
deriving DecidableEq, Repr

/-- `parse_days_range` from `app/utils/staging.py` (lines 413 to 432):
empty string maps to `(0, unbounded)`; a trailing `+` maps to
`(int(prefix), unbounded)`; otherwise the string is split on `-` and must
give exactly two parts, mapped through `int`.  `max` is `none` for
unbounded. -/
def parse_days_range (days_range : String) : Except RangeError (Int × Option Int) :=
  let cs := days_range.data
  if cs = [] then .ok (0, none)
  else if cs.getLast? = some '+' then
    match pyIntOfChars cs.dropLast with
    | some n => .ok (n, none)
    | none => .error (.intConversion (String.mk cs.dropLast))
  else
    match splitOnDash cs with
    | [a, b] =>
      match pyIntOfChars a with
      | none => .error (.intConversion (String.mk a))
      | some x =>
        match pyIntOfChars b with
        | none => .error (.intConversion (String.mk b))
        | some y => .ok (x, some y)
    | _ => .error (.invalidFormat days_range)

/-- Modelled from the spec: `is_in_range` is imported by the routes from
`app.calculators.ecl`, which is not among the embedded source files.  The
specification states that a category interval contains a value `d` when
`min ≤ d` and (`d < max` or max unbounded). -/
def is_in_range (d : Int) (r : Int × Option Int) : Bool :=
  decide (r.1 ≤ d) &&
    match r.2 with
    | none => true
    | some mx => decide (d < mx)

/-- `d` is below an optional exclusive upper bound (`max is None or d < max`
in the staging code). -/
def belowMax (mx : Option Int) (d : Int) : Bool :=
  match mx with
  | none => true
  | some m => decide (d < m)

/-- The five local-impairment category labels. -/
inductive Category where
  | Current
  | OLEM
  | Substandard
  | Doubtful
  | Loss
deriving DecidableEq, Repr

/-- Parsed bounds of an ECL staging configuration. -/
structure EclBounds where
  s1min : Int
  s1max : Option Int
  s2min : Int
  s2max : Option Int
  s3min : Int
  s3max : Option Int
deriving DecidableEq, Repr

/-- Parsed bounds of a local-impairment configuration. -/
structure LocalBounds where
  currentMin : Int
  currentMax : Option Int
  olemMin : Int
  olemMax : Option Int
  substandardMin : Int
  substandardMax : Option Int
  doubtfulMin : Int
  doubtfulMax : Option Int
  lossMin : Int
  lossMax : Option Int
deriving DecidableEq, Repr

/-- Stage decision of the asynchronous ORM ECL staging
(`app/utils/staging.py` lines 79 to 90): Stage 3 lower bound first, then
Stage 2 with both bounds, Stage 1 as the `else` fallback. -/
def eclStageOrmClassify (b : EclBounds) (d : Int) : Nat :=
  if b.s3min ≤ d then 3
  else if b.s2min ≤ d ∧ belowMax b.s2max d then 2
  else 1

/-- Stage decision of the synchronous ORM ECL staging
(`app/utils/staging.py` lines 494 to 508): Stage 1 first, Stage 2, then
Stage 3 whose upper-bound check is `stage_3_max is None or ndia is not
None` — the second disjunct is always true at that point, so Stage 3 has
no effective upper bound; when nothing matches, no stage is assigned. -/
def eclStageSyncClassify (b : EclBounds) (d : Int) : Option Nat :=
  if 0 ≤ d ∧ belowMax b.s1max d then some 1
  else if b.s2min ≤ d ∧ belowMax b.s2max d then some 2
  else if b.s3min ≤ d ∧ (b.s3max = none ∨ True) then some 3
  else none

/-- Stage decision of the `stage_loans_ecl` route
(`app/routes/portfolio.py` lines 449 to 457): Stage 1 range first, then
Stage 2, then Stage 3, defaulting to Stage 3 when no range matches. -/
def eclStageRouteClassify (r1 r2 r3 : Int × Option Int) (d : Int) : Nat :=
  if is_in_range d r1 then 1
  else if is_in_range d r2 then 2
  else if is_in_range d r3 then 3
  else 3

/-- Category decision shared by both ORM local-impairment stagings
(`app/utils/staging.py` lines 254 to 273 and 641 to 660): Current first
(testing `0 ≤ d`, not the configured Current minimum), then OLEM,
Substandard, Doubtful; the Loss branch tests `loss_max is None or ndia is
not None`, whose second disjunct is always true, so Loss has no effective
upper bound; when nothing matches, no category is assigned. -/
def localCategoryOrmClassify (b : LocalBounds) (d : Int) : Option Category :=
  if 0 ≤ d ∧ belowMax b.currentMax d then some .Current
  else if b.olemMin ≤ d ∧ belowMax b.olemMax d then some .OLEM
  else if b.substandardMin ≤ d ∧ belowMax b.substandardMax d then some .Substandard
  else if b.doubtfulMin ≤ d ∧ belowMax b.doubtfulMax d then some .Doubtful
  else if b.lossMin ≤ d ∧ (b.lossMax = none ∨ True) then some .Loss
  else none

/-- Parsed ranges used by the `stage_loans_local_impairment` route. -/
structure LocalRanges where
  current : Int × Option Int
  olem : Int × Option Int
  substandard : Int × Option Int
  doubtful : Int × Option Int
  loss : Int × Option Int
deriving DecidableEq, Repr

/-- Category decision of the `stage_loans_local_impairment` route
(`app/routes/portfolio.py` lines 541 to 550): the five ranges are tried
least severe first via `is_in_range`; there is no `else` branch, so a value
matching no range yields no assignment. -/
def localRouteClassify (b : LocalRanges) (d : Int) : Option Category :=
  if is_in_range d b.current then some .Current
  else if is_in_range d b.olem then some .OLEM
  else if is_in_range d b.substandard then some .Substandard
  else if is_in_range d b.doubtful then some .Doubtful
  else if is_in_range d b.loss then some .Loss
  else none

/-- The fields of a `Loan` row that staging reads and writes.  `none`
models SQL NULL.  The synchronous ECL staging writes a label string
(`"Stage 1"` ...) into `stage`; the asynchronous one writes an integer into
`ecl_stage`; both local stagings write `impairment_category`. -/
structure Loan where
  id : Int
  ndia : Option Int
  outstanding_loan_balance : Option Rat
  accumulated_arrears : Option Rat
  monthly_installment : Option Rat
  ecl_stage : Option Nat := none
  stage : Option Nat := none
  impairment_category : Option Category := none
deriving DecidableEq, Repr

/-- `float(loan.outstanding_loan_balance)` with the `None → 0.0` default
used throughout the staging code. -/
def loanBalance (l : Loan) : Rat :=
  l.outstanding_loan_balance.getD 0

/-- The NDIA derivation of the `stage_loans_local_impairment` route
(`app/routes/portfolio.py` lines 524 to 538): when `ndia` is absent it is
`int(accumulated_arrears / monthly_installment * 30)` provided arrears and
installment are truthy (present and nonzero) and the installment is
positive, else `0`. -/
def deriveNdia (ndia : Option Int) (arrears installment : Option Rat) : Int :=
  match ndia with
  | some n => n
  | none =>
    match arrears, installment with
    | some a, some m =>
      if a ≠ 0 ∧ m ≠ 0 ∧ 0 < m then pyTruncInt (a / m * 30) else 0
    | _, _ => 0

/-- The two per-loan runtime errors the `stage_loans_local_impairment`
route body can raise: reading the never-assigned `stage` variable
(`UnboundLocalError`), and `int(loan.ndia)` on a NULL ndia (`TypeError`,
`app/routes/portfolio.py` line 553). -/
inductive RouteError where
  | unboundLocalStage
  | intOfNone
deriving DecidableEq, Repr

/-- A staged loan as serialised by the routes (`LoanStageInfo` restricted
to the fields the claims mention). -/
structure RouteStaged where
  loan_id : Int
  stage : Category
  ndia : Int
deriving DecidableEq, Repr

/-- The per-loan loop of the `stage_loans_local_impairment` route
(`app/routes/portfolio.py` lines 524 to 575).  `lastStage` is the Python
binding of the local variable `stage` from the previous iteration: when no
range matches, the variable silently keeps that binding, and reading it on
the first loan raises `UnboundLocalError`.  Before `stage` is read the
route recomputes `ndia = int(loan.ndia)`, which raises on NULL ndia even
though the classification above used the derived value. -/
def stage_loans_local_impairment_go (b : LocalRanges) (lastStage : Option Category) :
    List Loan → Except RouteError (List RouteStaged)
  | [] => .ok []
  | loan :: rest =>
    let nd := deriveNdia loan.ndia loan.accumulated_arrears loan.monthly_installment
    let stageNow :=
      match localRouteClassify b nd with
      | some c => some c
      | none => lastStage
    match loan.ndia with
    | none => .error .intOfNone
    | some n =>
      match stageNow with
      | none => .error .unboundLocalStage
      | some c =>
        match stage_loans_local_impairment_go b stageNow rest with
        | .ok tl => .ok (⟨loan.id, c, n⟩ :: tl)
        | .error e => .error e

/-- The raw `days_range` strings of a local-impairment configuration
(`LocalImpairmentConfig` in `app/schemas.py`). -/
structure LocalImpairmentConfig where
  current : String
  olem : String
  substandard : String
  doubtful : String
  loss : String
deriving DecidableEq, Repr

/-- Parsing of the five ranges at the top of the local staging route
(`app/routes/portfolio.py` lines 508 to 516). -/
def parseLocalRanges (cfg : LocalImpairmentConfig) : Except RangeError LocalRanges := do
  let rc ← parse_days_range cfg.current
  let ro ← parse_days_range cfg.olem
  let rs ← parse_days_range cfg.substandard
  let rd ← parse_days_range cfg.doubtful
  let rl ← parse_days_range cfg.loss
  return ⟨rc, ro, rs, rd, rl⟩

/-- `stage_loans_local_impairment` route (`app/routes/portfolio.py` lines
486 to 575): parse the configured ranges (a parse failure becomes an HTTP
400, modelled as the left error), then run the per-loan loop. -/
def stage_loans_local_impairment (cfg : LocalImpairmentConfig) (loans : List Loan) :
    Except (Sum RangeError RouteError) (List RouteStaged) :=
  match parseLocalRanges cfg with
  | .error e => .error (.inl e)
  | .ok b =>
    match stage_loans_local_impairment_go b none loans with
    | .error e => .error (.inr e)
    | .ok r => .ok r

/-- A staged loan of the ECL route (stage is 1, 2 or 3). -/
structure RouteStagedEcl where
  loan_id : Int
  stage : Nat
  ndia : Int
deriving DecidableEq, Repr

/-- The per-loan loop of the `stage_loans_ecl` route
(`app/routes/portfolio.py` lines 446 to 482).  The route reads `loan.ndia`
directly (no derivation); a NULL ndia raises before the loan is serialised
(comparison inside the range check, and `int(loan.ndia)` at line 460). -/
def stage_loans_ecl_go (r1 r2 r3 : Int × Option Int) :
    List Loan → Except RouteError (List RouteStagedEcl)
  | [] => .ok []
  | loan :: rest =>
    match loan.ndia with
    | none => .error .intOfNone
    | some n =>
      match stage_loans_ecl_go r1 r2 r3 rest with
      | .ok tl => .ok (⟨loan.id, eclStageRouteClassify r1 r2 r3 n, n⟩ :: tl)
      | .error e => .error e

/-- Per-loan write of the asynchronous ORM ECL staging
(`app/utils/staging.py` lines 67 to 93): NULL ndia defaults to 0, the
stage is recomputed from ndia and overwrites `ecl_stage`. -/
def eclOrmStageLoan (b : EclBounds) (l : Loan) : Loan :=
  { l with ecl_stage := some (eclStageOrmClassify b (l.ndia.getD 0)) }

/-- Per-stage loan counts and balance sums of an ECL staging run. -/
structure EclTotals where
  c1 : Nat
  c2 : Nat
  c3 : Nat
  b1 : Rat
  b2 : Rat
  b3 : Rat
deriving DecidableEq, Repr

/-- Counter accumulation of the asynchronous ORM ECL staging: each loan
adds one to the count and its balance to the balance of its recomputed
stage.  Addition of exact rationals is commutative, so the recursion order
is immaterial to the result. -/
def eclOrmTotals (b : EclBounds) : List Loan → EclTotals
  | [] => ⟨0, 0, 0, 0, 0, 0⟩
  | l :: rest =>
    let t := eclOrmTotals b rest
    match eclStageOrmClassify b (l.ndia.getD 0) with
    | 3 => { t with c3 := t.c3 + 1, b3 := loanBalance l + t.b3 }
    | 2 => { t with c2 := t.c2 + 1, b2 := loanBalance l + t.b2 }
    | _ => { t with c1 := t.c1 + 1, b1 := loanBalance l + t.b1 }

/-- One per-stage block of the ECL run summary. -/
structure EclStageSummary where
  num_loans : Nat
  outstanding_loan_balance : Rat
deriving DecidableEq, Repr

/-- The summary dictionary returned by `stage_loans_ecl_orm` on success
(balances rounded to two decimals at line 108). -/
structure EclOrmSummary where
  total_loans : Nat
  stage1 : EclStageSummary
  stage2 : EclStageSummary
  stage3 : EclStageSummary
deriving DecidableEq, Repr

/-- Success summary of the asynchronous ORM ECL staging over a loan
population. -/
def eclOrmSummary (b : EclBounds) (loans : List Loan) : EclOrmSummary :=
  let t := eclOrmTotals b loans
  { total_loans := loans.length
    stage1 := ⟨t.c1, pyRound t.b1 2⟩
    stage2 := ⟨t.c2, pyRound t.b2 2⟩
    stage3 := ⟨t.c3, pyRound t.b3 2⟩ }

/-- Outcome of an ORM staging run: the success summary, or the
`{"status": "error"}` dictionary produced by the exception handler. -/
inductive EclOrmResult where
  | success (s : EclOrmSummary)
  | error
deriving DecidableEq, Repr

/-- The page loop of `stage_loans_ecl_orm`: stage and commit one page at a
time.  `failAt = some j` injects an exception while page `j` is being
processed (before its commit): the handler rolls the transaction back, so
page `j` and the following pages keep their stored records, while pages
committed earlier keep their new stage assignments.  Returns the final
stored pages and whether the run completed. -/
def eclOrmRunPages (b : EclBounds) :
    List (List Loan) → Option Nat → List (List Loan) × Bool
  | [], _ => ([], true)
  | p :: ps, none =>
    let r := eclOrmRunPages b ps none
    (p.map (eclOrmStageLoan b) :: r.1, r.2)
  | p :: ps, some 0 => (p :: ps, false)
  | p :: ps, some (j + 1) =>
    let r := eclOrmRunPages b ps (some j)
    (p.map (eclOrmStageLoan b) :: r.1, r.2)

/-- `stage_loans_ecl_orm` (`app/utils/staging.py` lines 17 to 174) over a
paged loan population with an optional injected mid-run failure: the final
stored state of every page, and either the success summary (recomputed
counters over the whole population) or the error result from the
`except` branch. -/
def stage_loans_ecl_orm (b : EclBounds) (pages : List (List Loan))
    (failAt : Option Nat) : List (List Loan) × EclOrmResult :=
  let r := eclOrmRunPages b pages failAt
  if r.2 then (r.1, .success (eclOrmSummary b pages.flatten)) else (r.1, .error)

/-- Per-loan write of both ORM local-impairment stagings: NULL ndia
defaults to 0 (asynchronous variant, `app/utils/staging.py` line 244); the
category is overwritten when some branch matches and left untouched
otherwise. -/
def localOrmStageLoan (b : LocalBounds) (l : Loan) : Loan :=
  match localCategoryOrmClassify b (l.ndia.getD 0) with
  | some c => { l with impairment_category := some c }
  | none => l

/-- Per-category loan counts and balance sums of a local-impairment run. -/
structure LocalTotals where
  cCur : Nat
  cOlem : Nat
  cSub : Nat
  cDoubt : Nat
  cLoss : Nat
  bCur : Rat
  bOlem : Rat
  bSub : Rat
  bDoubt : Rat
  bLoss : Rat
deriving DecidableEq, Repr

/-- Counter accumulation of the asynchronous ORM local staging
(`app/utils/staging.py` lines 242 to 273); a loan matching no branch is
counted nowhere. -/
def localOrmTotals (b : LocalBounds) : List Loan → LocalTotals
  | [] => ⟨0, 0, 0, 0, 0, 0, 0, 0, 0, 0⟩
  | l :: rest =>
    let t := localOrmTotals b rest
    match localCategoryOrmClassify b (l.ndia.getD 0) with
    | some .Current => { t with cCur := t.cCur + 1, bCur := loanBalance l + t.bCur }
    | some .OLEM => { t with cOlem := t.cOlem + 1, bOlem := loanBalance l + t.bOlem }
    | some .Substandard => { t with cSub := t.cSub + 1, bSub := loanBalance l + t.bSub }
    | some .Doubtful => { t with cDoubt := t.cDoubt + 1, bDoubt := loanBalance l + t.bDoubt }
    | some .Loss => { t with cLoss := t.cLoss + 1, bLoss := loanBalance l + t.bLoss }
    | none => t

/-- One per-category block of the local-impairment run summary, with the
provision fields the ORM stagings attach. -/
structure LocalCatSummary where
  num_loans : Nat
  outstanding_loan_balance : Rat
  provision_amount : Rat
  provision_rate : Rat
deriving DecidableEq, Repr

/-- The summary of the local-impairment run. -/
structure LocalOrmSummary where
  total_loans : Nat
  current : LocalCatSummary
  olem : LocalCatSummary
  substandard : LocalCatSummary
  doubtful : LocalCatSummary
  loss : LocalCatSummary
deriving DecidableEq, Repr

/-- Success summary of the asynchronous ORM local staging
(`app/utils/staging.py` lines 290 to 403): balances are rounded to two
decimals, then multiplied by the hard-coded provision rates 0.01, 0.05,
0.25, 0.5 and 1.0 — the configuration supplies day ranges only and is
never consulted for rates. -/
def localOrmSummary (b : LocalBounds) (loans : List Loan) : LocalOrmSummary :=
  let t := localOrmTotals b loans
  { total_loans := loans.length
    current := ⟨t.cCur, pyRound t.bCur 2, pyRound t.bCur 2 * (1 / 100), 1 / 100⟩
    olem := ⟨t.cOlem, pyRound t.bOlem 2, pyRound t.bOlem 2 * (5 / 100), 5 / 100⟩
    substandard := ⟨t.cSub, pyRound t.bSub 2, pyRound t.bSub 2 * (25 / 100), 25 / 100⟩
    doubtful := ⟨t.cDoubt, pyRound t.bDoubt 2, pyRound t.bDoubt 2 * (5 / 10), 5 / 10⟩
    loss := ⟨t.cLoss, pyRound t.bLoss 2, pyRound t.bLoss 2 * 1, 1⟩ }

/-- Outcome of an ORM local staging run. -/
inductive LocalOrmResult where
  | success (s : LocalOrmSummary)
  | error
deriving DecidableEq, Repr

/-- The page loop of `stage_loans_local_impairment_orm`, with the same
commit-per-page and rollback-on-failure behaviour as the ECL one. -/
def localOrmRunPages (b : LocalBounds) :
    List (List Loan) → Option Nat → List (List Loan) × Bool
  | [], _ => ([], true)
  | p :: ps, none =>
    let r := localOrmRunPages b ps none
    (p.map (localOrmStageLoan b) :: r.1, r.2)
  | p :: ps, some 0 => (p :: ps, false)
  | p :: ps, some (j + 1) =>
    let r := localOrmRunPages b ps (some j)
    (p.map (localOrmStageLoan b) :: r.1, r.2)

/-- `stage_loans_local_impairment_orm` (`app/utils/staging.py` lines 176
to 411) over a paged population with an optional injected failure. -/
def stage_loans_local_impairment_orm (b : LocalBounds) (pages : List (List Loan))
    (failAt : Option Nat) : List (List Loan) × LocalOrmResult :=
  let r := localOrmRunPages b pages failAt
  if r.2 then (r.1, .success (localOrmSummary b pages.flatten)) else (r.1, .error)

/-- Per-loan write of the synchronous ORM ECL staging
(`app/utils/staging.py` lines 481 to 508): a loan with NULL ndia is
skipped entirely (`continue`); otherwise the matching branch, if any,
writes the stage label. -/
def eclOrmSyncStageLoan (b : EclBounds) (l : Loan) : Loan :=
  match l.ndia with
  | none => l
  | some n =>
    match eclStageSyncClassify b n with
    | some s => { l with stage := some s }
    | none => l

/-- Counter accumulation of the synchronous ORM ECL staging: loans with
NULL ndia are skipped and counted nowhere. -/
def eclOrmSyncTotals (b : EclBounds) : List Loan → EclTotals
  | [] => ⟨0, 0, 0, 0, 0, 0⟩
  | l :: rest =>
    let t := eclOrmSyncTotals b rest
    match l.ndia with
    | none => t
    | some n =>
      match eclStageSyncClassify b n with
      | some 1 => { t with c1 := t.c1 + 1, b1 := loanBalance l + t.b1 }
      | some 2 => { t with c2 := t.c2 + 1, b2 := loanBalance l + t.b2 }
      | some 3 => { t with c3 := t.c3 + 1, b3 := loanBalance l + t.b3 }
      | _ => t

/-- Per-loan write of the synchronous ORM local staging
(`app/utils/staging.py` lines 629 to 660): NULL-ndia loans are skipped. -/
def localOrmSyncStageLoan (b : LocalBounds) (l : Loan) : Loan :=
  match l.ndia with
  | none => l
  | some n =>
    match localCategoryOrmClassify b n with
    | some c => { l with impairment_category := some c }
    | none => l

/-- Counter accumulation of the synchronous ORM local staging. -/
def localOrmSyncTotals (b : LocalBounds) : List Loan → LocalTotals
  | [] => ⟨0, 0, 0, 0, 0, 0, 0, 0, 0, 0⟩
  | l :: rest =>
    let t := localOrmSyncTotals b rest
    match l.ndia with
    | none => t
    | some n =>
      match localCategoryOrmClassify b n with
      | some .Current => { t with cCur := t.cCur + 1, bCur := loanBalance l + t.bCur }
      | some .OLEM => { t with cOlem := t.cOlem + 1, bOlem := loanBalance l + t.bOlem }
      | some .Substandard => { t with cSub := t.cSub + 1, bSub := loanBalance l + t.bSub }
      | some .Doubtful => { t with cDoubt := t.cDoubt + 1, bDoubt := loanBalance l + t.bDoubt }
      | some .Loss => { t with cLoss := t.cLoss + 1, bLoss := loanBalance l + t.bLoss }
      | none => t

/-- Result summary of `stage_loans_local_impairment_orm_sync`
(`app/utils/staging.py` lines 675 to 756): balances are not rounded;
provisions use the same hard-coded rates as the asynchronous variant; the
returned `total_loans` is `sum(category_counts.values())` (line 755), so
loans skipped for NULL ndia or matching no category are not counted. -/
def localOrmSyncSummary (b : LocalBounds) (loans : List Loan) : LocalOrmSummary :=
  let t := localOrmSyncTotals b loans
  { total_loans := t.cCur + t.cOlem + t.cSub + t.cDoubt + t.cLoss
    current := ⟨t.cCur, t.bCur, t.bCur * (1 / 100), 1 / 100⟩
    olem := ⟨t.cOlem, t.bOlem, t.bOlem * (5 / 100), 5 / 100⟩
    substandard := ⟨t.cSub, t.bSub, t.bSub * (25 / 100), 25 / 100⟩
    doubtful := ⟨t.cDoubt, t.bDoubt, t.bDoubt * (5 / 10), 5 / 10⟩
    loss := ⟨t.cLoss, t.bLoss, t.bLoss * 1, 1⟩ }

/-- Python `str.lower()` on one ASCII character. -/
def charLower (c : Char) : Char :=
  if 'A' ≤ c ∧ c ≤ 'Z' then Char.ofNat (c.toNat + 32) else c

/-- Python `str.lower()` on a character list (the stage labels compared by
the provision routes are ASCII). -/
def pyLower (cs : List Char) : List Char :=
  cs.map charLower

/-- A pre-staged loan reference as posted to the provision routes
(`LoanStageInfo` fields the aggregation reads). -/
structure LoanStageInfo where
  loan_id : Int
  stage : String
  outstanding_loan_balance : Rat
deriving DecidableEq, Repr

/-- `ProvisionRateConfig` from `app/schemas.py`. -/
structure ProvisionRateConfig where
  current : Rat
  olem : Rat
  substandard : Rat
  doubtful : Rat
  loss : Rat
deriving DecidableEq, Repr

/-- Per-category accumulator of `calculate_local_provision`
(`app/routes/portfolio.py` lines 985 to 1026). -/
structure LocalProvisionAcc where
  cCur : Nat
  cOlem : Nat
  cSub : Nat
  cDoubt : Nat
  cLoss : Nat
  tCur : Rat
  tOlem : Rat
  tSub : Rat
  tDoubt : Rat
  tLoss : Rat
deriving DecidableEq, Repr

/-- The aggregation loop of `calculate_local_provision`: a staged
reference whose `loan_id` is not in the store is skipped (`continue`,
lines 1002 to 1004); otherwise the lower-cased stage label selects the
category whose count and total receive the reference; an unrecognised
label falls through every branch and contributes nothing.  Rational
addition commutes, so the recursion order does not change the sums. -/
def localProvisionAcc (store : List Int) : List LoanStageInfo → LocalProvisionAcc
  | [] => ⟨0, 0, 0, 0, 0, 0, 0, 0, 0, 0⟩
  | l :: rest =>
    let acc := localProvisionAcc store rest
    if store.contains l.loan_id then
      let s := pyLower l.stage.data
      if s = "current".data then
        { acc with cCur := acc.cCur + 1, tCur := l.outstanding_loan_balance + acc.tCur }
      else if s = "olem".data then
        { acc with cOlem := acc.cOlem + 1, tOlem := l.outstanding_loan_balance + acc.tOlem }
      else if s = "substandard".data then
        { acc with cSub := acc.cSub + 1, tSub := l.outstanding_loan_balance + acc.tSub }
      else if s = "doubtful".data then
        { acc with cDoubt := acc.cDoubt + 1, tDoubt := l.outstanding_loan_balance + acc.tDoubt }
      else if s = "loss".data then
        { acc with cLoss := acc.cLoss + 1, tLoss := l.outstanding_loan_balance + acc.tLoss }
      else acc
    else acc

/-- Independent description of one category total: the balance sum of the
resolvable staged references carrying that (lower-cased) label.  Used to
state what the aggregation loop computes. -/
def categoryTotal (store : List Int) (loans : List LoanStageInfo) (cat : String) : Rat :=
  ((loans.filter (fun l => store.contains l.loan_id)).filter
    (fun l => pyLower l.stage.data = cat.data)).foldr (fun l s => l.outstanding_loan_balance + s) 0

/-- Independent description of one category count. -/
def categoryCount (store : List Int) (loans : List LoanStageInfo) (cat : String) : Nat :=
  ((loans.filter (fun l => store.contains l.loan_id)).filter
    (fun l => pyLower l.stage.data = cat.data)).length

/-- One category block of the provision responses (`CategoryData` in
`app/schemas.py`). -/
structure CategoryData where
  num_loans : Nat
  total_loan_value : Rat
  provision_amount : Rat
  provision_rate : Rat
deriving DecidableEq, Repr

/-- `LocalImpairmentSummary` response. -/
structure LocalImpairmentSummary where
  current : CategoryData
  olem : CategoryData
  substandard : CategoryData
  doubtful : CategoryData
  loss : CategoryData
  total_provision : Rat
  provision_percentage : Rat
deriving DecidableEq, Repr

/-- `calculate_local_provision` (`app/routes/portfolio.py` lines 952 to
1090): accumulate per-category totals over the resolvable staged
references, apply the configured rates, and report rounded amounts, the
rounded total, and the rounded provision percentage, which is 0 when the
total staged value is not positive. -/
def calculate_local_provision (store : List Int) (cfg : ProvisionRateConfig)
    (loans : List LoanStageInfo) : LocalImpairmentSummary :=
  let acc := localProvisionAcc store loans
  let curProv := acc.tCur * cfg.current
  let olemProv := acc.tOlem * cfg.olem
  let subProv := acc.tSub * cfg.substandard
  let doubtProv := acc.tDoubt * cfg.doubtful
  let lossProv := acc.tLoss * cfg.loss
  let totalValue := acc.tCur + acc.tOlem + acc.tSub + acc.tDoubt + acc.tLoss
  let totalProv := curProv + olemProv + subProv + doubtProv + lossProv
  let pct := if 0 < totalValue then totalProv / totalValue * 100 else 0
  { current := ⟨acc.cCur, pyRound acc.tCur 2, pyRound curProv 2, cfg.current⟩
    olem := ⟨acc.cOlem, pyRound acc.tOlem 2, pyRound olemProv 2, cfg.olem⟩
    substandard := ⟨acc.cSub, pyRound acc.tSub 2, pyRound subProv 2, cfg.substandard⟩
    doubtful := ⟨acc.cDoubt, pyRound acc.tDoubt 2, pyRound doubtProv 2, cfg.doubtful⟩
    loss := ⟨acc.cLoss, pyRound acc.tLoss 2, pyRound lossProv 2, cfg.loss⟩
    total_provision := pyRound totalProv 2
    provision_percentage := pyRound pct 1 }

/-- Accumulator of `calculate_ecl_provision` (`app/routes/portfolio.py`
lines 1125 to 1242). -/
structure EclProvisionAcc where
  c1 : Nat
  c2 : Nat
  c3 : Nat
  t1 : Rat
  t2 : Rat
  t3 : Rat
  p1 : Rat
  p2 : Rat
  p3 : Rat
  totalLgd : Rat
  totalPd : Rat
  totalEad : Rat
  totalLoans : Nat
deriving DecidableEq, Repr

/-- The aggregation loop of `calculate_ecl_provision`.  The per-loan risk
calculators (`calculate_loss_given_default`, `calculate_probability_of_default`,
`calculate_exposure_at_default_percentage`, `calculate_marginal_ecl`) live
in `app.calculators.ecl`, which is not among the embedded source files;
with the security context and reporting date fixed they are functions of
the staged reference, so they are abstracted as the parameters `lgdOf`,
`pdOf`, `eadOf` and `eclOf`.  A reference that does not resolve in the
store is skipped before `total_loans` is incremented (lines 1170 to 1172);
a resolved reference with an unrecognised label is counted in
`total_loans` (line 1242) but in no stage. -/
def eclProvisionAcc (store : List Int) (lgdOf pdOf eadOf eclOf : LoanStageInfo → Rat) :
    List LoanStageInfo → EclProvisionAcc
  | [] => ⟨0, 0, 0, 0, 0, 0, 0, 0, 0, 0, 0, 0, 0⟩
  | l :: rest =>
    let acc := eclProvisionAcc store lgdOf pdOf eadOf eclOf rest
    if store.contains l.loan_id then
      let s := pyLower l.stage.data
      if s = "stage 1".data then
        { acc with
          c1 := acc.c1 + 1
          t1 := l.outstanding_loan_balance + acc.t1
          p1 := eclOf l + acc.p1
          totalLgd := lgdOf l + acc.totalLgd
          totalPd := pdOf l + acc.totalPd
          totalEad := eadOf l + acc.totalEad
          totalLoans := acc.totalLoans + 1 }
      else if s = "stage 2".data then
        { acc with
          c2 := acc.c2 + 1
          t2 := l.outstanding_loan_balance + acc.t2
          p2 := eclOf l + acc.p2
          totalLgd := lgdOf l + acc.totalLgd
          totalPd := pdOf l + acc.totalPd
          totalEad := eadOf l + acc.totalEad
          totalLoans := acc.totalLoans + 1 }
      else if s = "stage 3".data then
        { acc with
          c3 := acc.c3 + 1
          t3 := l.outstanding_loan_balance + acc.t3
          p3 := eclOf l + acc.p3
          totalLgd := lgdOf l + acc.totalLgd
          totalPd := pdOf l + acc.totalPd
          totalEad := eadOf l + acc.totalEad
          totalLoans := acc.totalLoans + 1 }
      else { acc with totalLoans := acc.totalLoans + 1 }
    else acc

/-- `ECLSummaryMetrics` response block. -/
structure ECLSummaryMetrics where
  avg_pd : Rat
  avg_lgd : Rat
  avg_ead : Rat
  total_provision : Rat
  provision_percentage : Rat
deriving DecidableEq, Repr

/-- `ECLSummary` response. -/
structure ECLSummary where
  stage_1 : CategoryData
  stage_2 : CategoryData
  stage_3 : CategoryData
  summary_metrics : ECLSummaryMetrics
deriving DecidableEq, Repr

/-- `calculate_ecl_provision` (`app/routes/portfolio.py` lines 1093 to
1302): per-stage effective rates are `provision / balance` guarded by
`balance > 0`, the summary averages divide by `total_loans` guarded by
`total_loans > 0`, and the provision percentage divides by the total
staged value guarded by `value > 0`. -/
def calculate_ecl_provision (store : List Int)
    (lgdOf pdOf eadOf eclOf : LoanStageInfo → Rat)
    (loans : List LoanStageInfo) : ECLSummary :=
  let acc := eclProvisionAcc store lgdOf pdOf eadOf eclOf loans
  let avgLgd := if 0 < acc.totalLoans then acc.totalLgd / acc.totalLoans else 0
  let avgPd := if 0 < acc.totalLoans then acc.totalPd / acc.totalLoans else 0
  let avgEad := if 0 < acc.totalLoans then acc.totalEad / acc.totalLoans else 0
  let totalValue := acc.t1 + acc.t2 + acc.t3
  let totalProv := acc.p1 + acc.p2 + acc.p3
  let pct := if 0 < totalValue then totalProv / totalValue * 100 else 0
  let r1 := if 0 < acc.t1 then acc.p1 / acc.t1 else 0
  let r2 := if 0 < acc.t2 then acc.p2 / acc.t2 else 0
  let r3 := if 0 < acc.t3 then acc.p3 / acc.t3 else 0
  { stage_1 := ⟨acc.c1, pyRound acc.t1 2, pyRound acc.p1 2, pyRound r1 4⟩
    stage_2 := ⟨acc.c2, pyRound acc.t2 2, pyRound acc.p2 2, pyRound r2 4⟩
    stage_3 := ⟨acc.c3, pyRound acc.t3 2, pyRound acc.p3 2, pyRound r3 4⟩
    summary_metrics :=
      ⟨pyRound avgPd 4, pyRound avgLgd 4, pyRound avgEad 4,
        pyRound totalProv 2, pyRound pct 2⟩ }

/-- Claim C5 counterexample: the input string `x+` is not one of the three
well-formed shapes, and `parse_days_range` does fail on it, but with the
`ValueError` of the failing `int("x")` conversion, which is not the
`Invalid days range format` error carrying the offending string `x+`. -/
theorem claim5_counterexample :
    parse_days_range "x+" = .error (.intConversion "x") ∧
    RangeError.intConversion "x" ≠ RangeError.invalidFormat "x+" := by
  decide

/-- Claim C5 (amended): `parse_days_range` maps the empty string to
`(0, unbounded)`, a string with numeric prefix and trailing `+` to
`(N, unbounded)`, and `A-B` with numeric `A` and `B` to `(A, B)`; it fails
on every other input, with the `InvalidRangeFormat` error carrying the
offending string exactly when the string does not end in `+` and does not
split on `-` into exactly two parts, and with the integer-conversion error
naming only the failing component otherwise. -/
theorem claim5_parse_days_range_rules :
    parse_days_range "" = .ok (0, none) ∧
    parse_days_range "0-30" = .ok (0, some 30) ∧
    parse_days_range "90+" = .ok (90, none) ∧
    parse_days_range "abc" = .error (.invalidFormat "abc") ∧
    (∀ (s : String) (n : Int), s.data.getLast? = some '+' →
      pyIntOfChars s.data.dropLast = some n → parse_days_range s = .ok (n, none)) ∧
    (∀ (s : String) (a b : List Char) (x y : Int),
      s.data.getLast? ≠ some '+' → splitOnDash s.data = [a, b] →
      pyIntOfChars a = some x → pyIntOfChars b = some y →
      parse_days_range s = .ok (x, some y)) ∧
    (∀ s : String, s.data ≠ [] → s.data.getLast? ≠ some '+' →
      (∀ a b : List Char, splitOnDash s.data ≠ [a, b]) →
      parse_days_range s = .error (.invalidFormat s)) ∧
    (∀ s : String, s.data.getLast? = some '+' → pyIntOfChars s.data.dropLast = none →
      parse_days_range s = .error (.intConversion (String.mk s.data.dropLast))) ∧
    (∀ (s : String) (a b : List Char),
      s.data.getLast? ≠ some '+' → splitOnDash s.data = [a, b] →
      pyIntOfChars a = none →
      parse_days_range s = .error (.intConversion (String.mk a))) ∧
    (∀ (s : String) (a b : List Char) (x : Int),
      s.data.getLast? ≠ some '+' → splitOnDash s.data = [a, b] →
      pyIntOfChars a = some x → pyIntOfChars b = none →
      parse_days_range s = .error (.intConversion (String.mk b))) ∧
    parse_days_range "a-b" = .error (.intConversion "a") := by
  refine ⟨by decide, by decide, by decide, by decide, ?_, ?_, ?_, ?_, ?_, ?_, by decide⟩
  · intro s n hplus hint
    have hne : s.data ≠ [] := by
      intro h
      rw [h] at hplus
      exact Option.noConfusion hplus
    unfold parse_days_range
    rw [if_neg hne, if_pos hplus, hint]
  · intro s a b x y hplus hsplit hx hy
    have hne : s.data ≠ [] := by
      intro h
      rw [h] at hsplit
      simp [splitOnDash] at hsplit
    unfold parse_days_range
    rw [if_neg hne, if_neg hplus, hsplit]
    simp only [hx, hy]
  · intro s hne hplus hsplit
    unfold parse_days_range
    rw [if_neg hne, if_neg hplus]
    rcases h : splitOnDash s.data with _ | ⟨a, rest⟩
    · rfl
    · rcases rest with _ | ⟨b, rest2⟩
      · rfl
      · rcases rest2 with _ | ⟨c, rest3⟩
        · exact absurd h (hsplit a b)
        · rfl
  · intro s hplus hint
    have hne : s.data ≠ [] := by
      intro h
      rw [h] at hplus
      exact Option.noConfusion hplus
    unfold parse_days_range
    rw [if_neg hne, if_pos hplus, hint]
  · intro s a b hplus hsplit hx
    have hne : s.data ≠ [] := by
      intro h
      rw [h] at hsplit
      simp [splitOnDash] at hsplit
    unfold parse_days_range
    rw [if_neg hne, if_neg hplus, hsplit]
    simp only [hx]
  · intro s a b x hplus hsplit hx hy
    have hne : s.data ≠ [] := by
      intro h
      rw [h] at hsplit
      simp [splitOnDash] at hsplit
    unfold parse_days_range
    rw [if_neg hne, if_neg hplus, hsplit]
    simp only [hx, hy]

/-- Witness for claim C5: the trailing-plus rule applied at `90+`. -/
theorem claim5_witness : parse_days_range "90+" = .ok (90, none) :=
  claim5_parse_days_range_rules.2.2.2.2.1 "90+" 90 (by decide) (by decide)

/-- Claim C1 counterexample: with the gap configuration below (no range
covers 31 to 39) the local-impairment staging route does not assign a
label to a loan 35 days past due — processing its (first) loan raises
`UnboundLocalError` when the never-assigned `stage` variable is read. -/
theorem claim1_counterexample :
    stage_loans_local_impairment ⟨"0-30", "40-50", "51-60", "61-70", "71+"⟩
      [{ id := 1, ndia := some 35, outstanding_loan_balance := some 100,
         accumulated_arrears := none, monthly_installment := none }] =
      .error (.inr .unboundLocalStage) := by
  decide

/-- Claim C1 (amended): the ECL staging route is total — it tries the
three ranges in order and returns Stage 3 whenever no range matches — but
the local-impairment implementations have no fallback: the route classifier
assigns no label exactly when none of the five ranges contains the value
(so the first such loan crashes the run, as the counterexample shows), and
the ORM stagers leave such a loan's stored category untouched. -/
theorem claim1_classification_totality :
    (∀ (r1 r2 r3 : Int × Option Int) (d : Int),
      (eclStageRouteClassify r1 r2 r3 d = 1 ∨ eclStageRouteClassify r1 r2 r3 d = 2 ∨
        eclStageRouteClassify r1 r2 r3 d = 3) ∧
      (is_in_range d r1 = false → is_in_range d r2 = false → is_in_range d r3 = false →
        eclStageRouteClassify r1 r2 r3 d = 3)) ∧
    (∀ (b : LocalRanges) (d : Int),
      localRouteClassify b d = none ↔
        is_in_range d b.current = false ∧ is_in_range d b.olem = false ∧
        is_in_range d b.substandard = false ∧ is_in_range d b.doubtful = false ∧
        is_in_range d b.loss = false) ∧
    (∀ (b : LocalRanges) (rest : List Loan) (loan : Loan) (n : Int),
      loan.ndia = some n → localRouteClassify b n = none →
      stage_loans_local_impairment_go b none (loan :: rest) =
        .error .unboundLocalStage) ∧
    (∀ (b : LocalBounds) (l : Loan),
      localCategoryOrmClassify b (l.ndia.getD 0) = none → localOrmStageLoan b l = l) := by
  refine ⟨?_, ?_, ?_, ?_⟩
  · intro r1 r2 r3 d
    constructor
    · unfold eclStageRouteClassify
      split
      · exact Or.inl rfl
      · split
        · exact Or.inr (Or.inl rfl)
        · split
          · exact Or.inr (Or.inr rfl)
          · exact Or.inr (Or.inr rfl)
    · intro h1 h2 h3
      unfold eclStageRouteClassify
      rw [h1, h2, h3]
      rfl
  · intro b d
    unfold localRouteClassify
    constructor
    · intro h
      by_cases h1 : is_in_range d b.current
      · rw [if_pos h1] at h
        exact Option.noConfusion h
      · by_cases h2 : is_in_range d b.olem
        · rw [if_neg h1, if_pos h2] at h
          exact Option.noConfusion h
        · by_cases h3 : is_in_range d b.substandard
          · rw [if_neg h1, if_neg h2, if_pos h3] at h
            exact Option.noConfusion h
          · by_cases h4 : is_in_range d b.doubtful
            · rw [if_neg h1, if_neg h2, if_neg h3, if_pos h4] at h
              exact Option.noConfusion h
            · by_cases h5 : is_in_range d b.loss
              · rw [if_neg h1, if_neg h2, if_neg h3, if_neg h4, if_pos h5] at h
                exact Option.noConfusion h
              · exact ⟨Bool.eq_false_iff.mpr h1, Bool.eq_false_iff.mpr h2,
                  Bool.eq_false_iff.mpr h3, Bool.eq_false_iff.mpr h4,
                  Bool.eq_false_iff.mpr h5⟩
    · intro ⟨h1, h2, h3, h4, h5⟩
      rw [h1, h2, h3, h4, h5]
      rfl
  · intro b rest loan n hn hclass
    unfold stage_loans_local_impairment_go
    rw [hn]
    simp only [deriveNdia, hclass]
  · intro b l h
    unfold localOrmStageLoan
    rw [h]

/-- Witness for claim C1: the ECL route fallback applied at a concrete gap
value (15 matches none of the three ranges, Stage 3 is returned). -/
theorem claim1_witness :
    eclStageRouteClassify (0, some 10) (20, some 30) (40, some 50) 15 = 3 :=
  (claim1_classification_totality.1 (0, some 10) (20, some 30) (40, some 50) 15).2
    (by decide) (by decide) (by decide)

/-- Claim C2 counterexample: with Stage 1 configured as `0-1000`, Stage 2
as `31-89` and Stage 3 as `90+`, a loan 100 days past due satisfies the
Stage 3 lower bound (90 ≤ 100), yet `stage_loans_ecl_orm_sync` and the
`stage_loans_ecl` route classify it as Stage 1 — they test Stage 1 first,
not Stage 3 — while the asynchronous `stage_loans_ecl_orm` returns
Stage 3. -/
theorem claim2_counterexample :
    eclStageSyncClassify ⟨0, some 1000, 31, some 90, 90, none⟩ 100 = some 1 ∧
    eclStageRouteClassify (0, some 1000) (31, some 90) (90, none) 100 = 1 ∧
    eclStageOrmClassify ⟨0, some 1000, 31, some 90, 90, none⟩ 100 = 3 ∧
    (90 : Int) ≤ 100 ∧ (1 : Nat) ≠ 3 := by
  decide

/-- Claim C2 (amended): the asynchronous `stage_loans_ecl_orm` tests the
Stage 3 lower bound first, but `stage_loans_ecl_orm_sync` and the
`stage_loans_ecl` route test Stage 1 first (its branch wins whenever its
condition holds); every local-impairment implementation tests Current
first. -/
theorem claim2_evaluation_order :
    (∀ (b : EclBounds) (d : Int), b.s3min ≤ d → eclStageOrmClassify b d = 3) ∧
    (∀ (b : EclBounds) (d : Int), 0 ≤ d → belowMax b.s1max d = true →
      eclStageSyncClassify b d = some 1) ∧
    (∀ (r1 r2 r3 : Int × Option Int) (d : Int), is_in_range d r1 = true →
      eclStageRouteClassify r1 r2 r3 d = 1) ∧
    (∀ (b : LocalBounds) (d : Int), 0 ≤ d → belowMax b.currentMax d = true →
      localCategoryOrmClassify b d = some .Current) ∧
    (∀ (b : LocalRanges) (d : Int), is_in_range d b.current = true →
      localRouteClassify b d = some .Current) := by
  refine ⟨?_, ?_, ?_, ?_, ?_⟩
  · intro b d h
    unfold eclStageOrmClassify
    rw [if_pos h]
  · intro b d h0 h1
    unfold eclStageSyncClassify
    rw [if_pos ⟨h0, h1⟩]
  · intro r1 r2 r3 d h
    unfold eclStageRouteClassify
    rw [h]
    rfl
  · intro b d h0 h1
    unfold localCategoryOrmClassify
    rw [if_pos ⟨h0, h1⟩]
  · intro b d h
    unfold localRouteClassify
    rw [h]
    rfl

/-- Witness for claim C2: the asynchronous ORM staging maps 100 days past
due to Stage 3 under the counterexample configuration. -/
theorem claim2_witness :
    eclStageOrmClassify ⟨0, some 1000, 31, some 90, 90, none⟩ 100 = 3 :=
  claim2_evaluation_order.1 ⟨0, some 1000, 31, some 90, 90, none⟩ 100 (by decide)

/-- Claim C4 counterexample: a loan with NULL ndia, arrears 60 and
installment 2 gets the derived value 900 for classification, yet the local
staging route crashes on it at `ndia = int(loan.ndia)` instead of
processing it; and with arrears -2 and installment 45 the derived value is
-1, which is negative. -/
theorem claim4_counterexample :
    stage_loans_local_impairment ⟨"0-30", "31-89", "90-179", "180-359", "360+"⟩
      [{ id := 1, ndia := none, outstanding_loan_balance := some 500,
         accumulated_arrears := some 60, monthly_installment := some 2 }] =
      .error (.inr .intOfNone) ∧
    deriveNdia none (some (-2)) (some 45) = -1 ∧ (-1 : Int) < 0 := by
  refine ⟨by decide, ?_, by decide⟩
  show deriveNdia none (some (-2)) (some 45) = -1
  simp only [deriveNdia]
  rw [if_pos (by norm_num)]
  rw [show ((-2 : Rat) / 45 * 30) = -(4 / 3) by norm_num]
  rw [pyTruncInt, if_neg (by norm_num), Int.ceil_neg]
  norm_num

/-- Claim C4 (amended): when ndia is absent the local staging route
derives it as the toward-zero truncation of `arrears / installment * 30`
(this equals the floor and is nonnegative whenever arrears is positive and
the installment positive), defaulting to 0 when arrears or installment are
missing or falsy or the installment is not positive; but the route then
raises a `TypeError` at `int(loan.ndia)` for every such loan, the
synchronous ORM stagers skip such loans entirely, and only the
asynchronous ORM stagers process them (with ndia defaulted to 0). -/
theorem claim4_ndia_derivation :
    (∀ (n : Int) (a m : Option Rat), deriveNdia (some n) a m = n) ∧
    (∀ m : Option Rat, deriveNdia none none m = 0) ∧
    (∀ a : Option Rat, deriveNdia none a none = 0) ∧
    (∀ m : Rat, deriveNdia none (some 0) (some m) = 0) ∧
    (∀ a m : Rat, m ≤ 0 → deriveNdia none (some a) (some m) = 0) ∧
    (∀ a m : Rat, 0 < a → 0 < m →
      deriveNdia none (some a) (some m) = ⌊a / m * 30⌋ ∧
      0 ≤ deriveNdia none (some a) (some m)) ∧
    (∀ (b : LocalRanges) (last : Option Category) (rest : List Loan) (loan : Loan),
      loan.ndia = none →
      stage_loans_local_impairment_go b last (loan :: rest) = .error .intOfNone) ∧
    (∀ (b : EclBounds) (l : Loan), l.ndia = none →
      eclOrmStageLoan b l = { l with ecl_stage := some (eclStageOrmClassify b 0) }) ∧
    (∀ (b : EclBounds) (l : Loan), l.ndia = none → eclOrmSyncStageLoan b l = l) ∧
    (∀ (b : LocalBounds) (l : Loan), l.ndia = none → localOrmSyncStageLoan b l = l) := by
  have derive_pos : ∀ a m : Rat, 0 < a → 0 < m →
      deriveNdia none (some a) (some m) = ⌊a / m * 30⌋ := by
    intro a m ha hm
    have hq : (0 : Rat) ≤ a / m * 30 := by positivity
    simp only [deriveNdia]
    rw [if_pos ⟨ne_of_gt ha, ne_of_gt hm, hm⟩, pyTruncInt, if_pos hq]
  refine ⟨fun n a m => rfl, fun m => rfl, ?_, ?_, ?_, ?_, ?_, ?_, ?_, ?_⟩
  · intro a
    cases a <;> rfl
  · intro m
    simp [deriveNdia]
  · intro a m hm
    simp only [deriveNdia]
    rw [if_neg]
    intro ⟨h1, h2, h3⟩
    exact absurd hm (not_le.mpr h3)
  · intro a m ha hm
    refine ⟨derive_pos a m ha hm, ?_⟩
    rw [derive_pos a m ha hm]
    have hq : (0 : Rat) ≤ a / m * 30 := by positivity
    exact Int.floor_nonneg.mpr hq
  · intro b last rest loan hn
    unfold stage_loans_local_impairment_go
    rw [hn]
  · intro b l hn
    unfold eclOrmStageLoan
    rw [hn]
    rfl
  · intro b l hn
    unfold eclOrmSyncStageLoan
    rw [hn]
  · intro b l hn
    unfold localOrmSyncStageLoan
    rw [hn]

/-- Witness for claim C4: the derivation rule applied at arrears 60 and
installment 2 (derived ndia is the floor of 900). -/
theorem claim4_witness :
    deriveNdia none (some 60) (some 2) = ⌊(60 : Rat) / 2 * 30⌋ :=
  (claim4_ndia_derivation.2.2.2.2.2.1 60 2 (by norm_num) (by norm_num)).1

theorem eclOrmStageLoan_idem (b : EclBounds) (l : Loan) :
    eclOrmStageLoan b (eclOrmStageLoan b l) = eclOrmStageLoan b l := rfl

theorem eclOrmStageLoan_ndia (b : EclBounds) (l : Loan) :
    (eclOrmStageLoan b l).ndia = l.ndia := rfl

theorem eclOrmStageLoan_balance (b : EclBounds) (l : Loan) :
    loanBalance (eclOrmStageLoan b l) = loanBalance l := rfl

theorem localOrmStageLoan_some (b : LocalBounds) (l : Loan) (c : Category)
    (hc : localCategoryOrmClassify b (l.ndia.getD 0) = some c) :
    localOrmStageLoan b l = { l with impairment_category := some c } := by
  unfold localOrmStageLoan
  rw [hc]

theorem localOrmStageLoan_none (b : LocalBounds) (l : Loan)
    (hc : localCategoryOrmClassify b (l.ndia.getD 0) = none) :
    localOrmStageLoan b l = l := by
  unfold localOrmStageLoan
  rw [hc]

theorem localOrmStageLoan_ndia (b : LocalBounds) (l : Loan) :
    (localOrmStageLoan b l).ndia = l.ndia := by
  cases hc : localCategoryOrmClassify b (l.ndia.getD 0) with
  | none => rw [localOrmStageLoan_none b l hc]
  | some c => rw [localOrmStageLoan_some b l c hc]

theorem localOrmStageLoan_balance (b : LocalBounds) (l : Loan) :
    loanBalance (localOrmStageLoan b l) = loanBalance l := by
  cases hc : localCategoryOrmClassify b (l.ndia.getD 0) with
  | none => rw [localOrmStageLoan_none b l hc]
  | some c =>
    rw [localOrmStageLoan_some b l c hc]
    rfl

theorem localOrmStageLoan_idem (b : LocalBounds) (l : Loan) :
    localOrmStageLoan b (localOrmStageLoan b l) = localOrmStageLoan b l := by
  cases hc : localCategoryOrmClassify b (l.ndia.getD 0) with
  | none =>
    rw [localOrmStageLoan_none b l hc, localOrmStageLoan_none b l hc]
  | some c =>
    rw [localOrmStageLoan_some b l c hc]
    exact localOrmStageLoan_some b _ c hc

theorem map_map_idem {α : Type} (f : α → α) (hf : ∀ a, f (f a) = f a) (l : List α) :
    (l.map f).map f = l.map f := by
  induction l with
  | nil => rfl
  | cons a t ih => simp only [List.map_cons, hf, ih]

theorem eclOrmTotals_map_stage (b : EclBounds) (loans : List Loan) :
    eclOrmTotals b (loans.map (eclOrmStageLoan b)) = eclOrmTotals b loans := by
  induction loans with
  | nil => rfl
  | cons l rest ih =>
    simp only [List.map_cons, eclOrmTotals, eclOrmStageLoan_ndia,
      eclOrmStageLoan_balance, ih]

theorem localOrmTotals_map_stage (b : LocalBounds) (loans : List Loan) :
    localOrmTotals b (loans.map (localOrmStageLoan b)) = localOrmTotals b loans := by
  induction loans with
  | nil => rfl
  | cons l rest ih =>
    rw [List.map_cons]
    show localOrmTotals b (localOrmStageLoan b l :: rest.map (localOrmStageLoan b)) =
      localOrmTotals b (l :: rest)
    unfold localOrmTotals
    rw [localOrmStageLoan_ndia, localOrmStageLoan_balance, ih]

theorem flattenMapComm {α β : Type} (f : α → β) (pages : List (List α)) :
    (pages.map (List.map f)).flatten = pages.flatten.map f := by
  induction pages with
  | nil => rfl
  | cons p ps ih =>
    simp only [List.map_cons, List.flatten_cons, List.map_append, ih]

theorem eclOrmRunPages_none (b : EclBounds) (pages : List (List Loan)) :
    eclOrmRunPages b pages none = (pages.map (List.map (eclOrmStageLoan b)), true) := by
  induction pages with
  | nil => rfl
  | cons p ps ih =>
    simp only [eclOrmRunPages, ih, List.map_cons]

theorem localOrmRunPages_none (b : LocalBounds) (pages : List (List Loan)) :
    localOrmRunPages b pages none = (pages.map (List.map (localOrmStageLoan b)), true) := by
  induction pages with
  | nil => rfl
  | cons p ps ih =>
    simp only [localOrmRunPages, ih, List.map_cons]

theorem stage_loans_ecl_orm_completes (b : EclBounds) (pages : List (List Loan)) :
    stage_loans_ecl_orm b pages none =
      (pages.map (List.map (eclOrmStageLoan b)),
        .success (eclOrmSummary b pages.flatten)) := by
  unfold stage_loans_ecl_orm
  rw [eclOrmRunPages_none]
  rfl

theorem stage_loans_local_impairment_orm_completes (b : LocalBounds)
    (pages : List (List Loan)) :
    stage_loans_local_impairment_orm b pages none =
      (pages.map (List.map (localOrmStageLoan b)),
        .success (localOrmSummary b pages.flatten)) := by
  unfold stage_loans_local_impairment_orm
  rw [localOrmRunPages_none]
  rfl

theorem eclOrmSummary_map_stage (b : EclBounds) (loans : List Loan) :
    eclOrmSummary b (loans.map (eclOrmStageLoan b)) = eclOrmSummary b loans := by
  unfold eclOrmSummary
  rw [eclOrmTotals_map_stage, List.length_map]

theorem localOrmSummary_map_stage (b : LocalBounds) (loans : List Loan) :
    localOrmSummary b (loans.map (localOrmStageLoan b)) = localOrmSummary b loans := by
  unfold localOrmSummary
  rw [localOrmTotals_map_stage, List.length_map]

/-- Claim C3: both ORM batch stagings are idempotent — re-running a
completed run on its own output (same configuration, unchanged population)
reproduces the stored per-loan stage assignments and the identical summary
(same counts and balances), because stages are recomputed from the
unchanged days-past-due and balances, overwriting the prior assignment,
and all counters restart from zero. -/
theorem claim3_staging_idempotent :
    ∀ (be : EclBounds) (bl : LocalBounds) (pages : List (List Loan)),
      stage_loans_ecl_orm be (stage_loans_ecl_orm be pages none).1 none =
        stage_loans_ecl_orm be pages none ∧
      stage_loans_local_impairment_orm bl
          (stage_loans_local_impairment_orm bl pages none).1 none =
        stage_loans_local_impairment_orm bl pages none := by
  intro be bl pages
  constructor
  · rw [stage_loans_ecl_orm_completes be pages]
    show stage_loans_ecl_orm be (pages.map (List.map (eclOrmStageLoan be))) none = _
    rw [stage_loans_ecl_orm_completes be (pages.map (List.map (eclOrmStageLoan be)))]
    rw [map_map_idem (List.map (eclOrmStageLoan be))
      (map_map_idem (eclOrmStageLoan be) (eclOrmStageLoan_idem be)) pages]
    rw [flattenMapComm, eclOrmSummary_map_stage]
  · rw [stage_loans_local_impairment_orm_completes bl pages]
    show stage_loans_local_impairment_orm bl
      (pages.map (List.map (localOrmStageLoan bl))) none = _
    rw [stage_loans_local_impairment_orm_completes bl
      (pages.map (List.map (localOrmStageLoan bl)))]
    rw [map_map_idem (List.map (localOrmStageLoan bl))
      (map_map_idem (localOrmStageLoan bl) (localOrmStageLoan_idem bl)) pages]
    rw [flattenMapComm, localOrmSummary_map_stage]

theorem eclOrmRunPages_some (b : EclBounds) :
    ∀ (pages : List (List Loan)) (j : Nat), j < pages.length →
      eclOrmRunPages b pages (some j) =
        ((pages.take j).map (List.map (eclOrmStageLoan b)) ++ pages.drop j, false) := by
  intro pages
  induction pages with
  | nil =>
    intro j hj
    exact absurd hj (by simp)
  | cons p ps ih =>
    intro j hj
    cases j with
    | zero => rfl
    | succ j =>
      have hj2 : j < ps.length := by
        simpa using Nat.lt_of_succ_lt_succ hj
      show (let r := eclOrmRunPages b ps (some j);
        (p.map (eclOrmStageLoan b) :: r.1, r.2)) = _
      rw [ih j hj2]
      rfl

/-- Claim C9: a failure injected while processing page `j` of an ECL
staging run leaves every earlier page staged (their commits are retained),
leaves page `j` and all later pages exactly as stored before the run (the
pending transaction is rolled back), and makes the run return the
structured error result instead of a success summary. -/
theorem claim9_failure_semantics :
    ∀ (b : EclBounds) (pages : List (List Loan)) (j : Nat), j < pages.length →
      stage_loans_ecl_orm b pages (some j) =
        ((pages.take j).map (List.map (eclOrmStageLoan b)) ++ pages.drop j,
          .error) := by
  intro b pages j hj
  unfold stage_loans_ecl_orm
  rw [eclOrmRunPages_some b pages j hj]
  rfl

/-- Witness for claim C9: two one-loan pages, failure while processing the
second page — the first page keeps its new stage, the second keeps its
stored record, and the result is the error summary. -/
theorem claim9_witness :
    stage_loans_ecl_orm ⟨0, some 30, 31, some 90, 90, none⟩
      [[{ id := 1, ndia := some 5, outstanding_loan_balance := some 100,
          accumulated_arrears := none, monthly_installment := none }],
       [{ id := 2, ndia := some 95, outstanding_loan_balance := some 200,
          accumulated_arrears := none, monthly_installment := none }]] (some 1) =
      (([[{ id := 1, ndia := some 5, outstanding_loan_balance := some 100,
            accumulated_arrears := none, monthly_installment := none }],
         [{ id := 2, ndia := some 95, outstanding_loan_balance := some 200,
            accumulated_arrears := none, monthly_installment := none }]].take 1).map
          (List.map (eclOrmStageLoan ⟨0, some 30, 31, some 90, 90, none⟩)) ++
        [[{ id := 1, ndia := some 5, outstanding_loan_balance := some 100,
            accumulated_arrears := none, monthly_installment := none }],
         [{ id := 2, ndia := some 95, outstanding_loan_balance := some 200,
            accumulated_arrears := none, monthly_installment := none }]].drop 1,
        .error) :=
  claim9_failure_semantics ⟨0, some 30, 31, some 90, 90, none⟩ _ 1 (by decide)

/-- Claim C10: whatever day ranges the caller configures, the run
summaries written by both ORM local-impairment stagings report the fixed
provision rates Current 0.01, OLEM 0.05, Substandard 0.25, Doubtful 0.5
and Loss 1.0, and every provision amount is the category balance
(rounded to two decimals in the asynchronous variant, unrounded in the
synchronous one) multiplied by that constant — the configuration carries
no rates and none is consulted. -/
theorem claim10_fixed_provision_rates :
    ∀ (b : LocalBounds) (pages : List (List Loan)) (loans : List Loan),
      (stage_loans_local_impairment_orm b pages none).2 =
        .success (localOrmSummary b pages.flatten) ∧
      ((localOrmSummary b loans).current.provision_rate = 1 / 100 ∧
        (localOrmSummary b loans).olem.provision_rate = 5 / 100 ∧
        (localOrmSummary b loans).substandard.provision_rate = 25 / 100 ∧
        (localOrmSummary b loans).doubtful.provision_rate = 5 / 10 ∧
        (localOrmSummary b loans).loss.provision_rate = 1) ∧
      ((localOrmSummary b loans).current.provision_amount =
          pyRound (localOrmTotals b loans).bCur 2 * (1 / 100) ∧
        (localOrmSummary b loans).olem.provision_amount =
          pyRound (localOrmTotals b loans).bOlem 2 * (5 / 100) ∧
        (localOrmSummary b loans).substandard.provision_amount =
          pyRound (localOrmTotals b loans).bSub 2 * (25 / 100) ∧
        (localOrmSummary b loans).doubtful.provision_amount =
          pyRound (localOrmTotals b loans).bDoubt 2 * (5 / 10) ∧
        (localOrmSummary b loans).loss.provision_amount =
          pyRound (localOrmTotals b loans).bLoss 2 * 1) ∧
      ((localOrmSyncSummary b loans).current.provision_rate = 1 / 100 ∧
        (localOrmSyncSummary b loans).olem.provision_rate = 5 / 100 ∧
        (localOrmSyncSummary b loans).substandard.provision_rate = 25 / 100 ∧
        (localOrmSyncSummary b loans).doubtful.provision_rate = 5 / 10 ∧
        (localOrmSyncSummary b loans).loss.provision_rate = 1) ∧
      ((localOrmSyncSummary b loans).current.provision_amount =
          (localOrmSyncTotals b loans).bCur * (1 / 100) ∧
        (localOrmSyncSummary b loans).olem.provision_amount =
          (localOrmSyncTotals b loans).bOlem * (5 / 100) ∧
        (localOrmSyncSummary b loans).substandard.provision_amount =
          (localOrmSyncTotals b loans).bSub * (25 / 100) ∧
        (localOrmSyncSummary b loans).doubtful.provision_amount =
          (localOrmSyncTotals b loans).bDoubt * (5 / 10) ∧
        (localOrmSyncSummary b loans).loss.provision_amount =
          (localOrmSyncTotals b loans).bLoss * 1) := by
  intro b pages loans
  refine ⟨?_, ⟨rfl, rfl, rfl, rfl, rfl⟩, ⟨rfl, rfl, rfl, rfl, rfl⟩,
    ⟨rfl, rfl, rfl, rfl, rfl⟩, ⟨rfl, rfl, rfl, rfl, rfl⟩⟩
  rw [stage_loans_local_impairment_orm_completes]

theorem localProvisionAcc_skip (store : List Int) (l : LoanStageInfo)
    (h : store.contains l.loan_id = false) :
    ∀ (loans1 loans2 : List LoanStageInfo),
      localProvisionAcc store (loans1 ++ l :: loans2) =
        localProvisionAcc store (loans1 ++ loans2) := by
  intro loans1
  induction loans1 with
  | nil =>
    intro loans2
    show localProvisionAcc store (l :: loans2) = localProvisionAcc store loans2
    simp only [localProvisionAcc, h, Bool.false_eq_true, if_false]
  | cons a t ih =>
    intro loans2
    show localProvisionAcc store (a :: (t ++ l :: loans2)) =
      localProvisionAcc store (a :: (t ++ loans2))
    simp only [localProvisionAcc, ih]

theorem eclProvisionAcc_skip (store : List Int)
    (lgdOf pdOf eadOf eclOf : LoanStageInfo → Rat) (l : LoanStageInfo)
    (h : store.contains l.loan_id = false) :
    ∀ (loans1 loans2 : List LoanStageInfo),
      eclProvisionAcc store lgdOf pdOf eadOf eclOf (loans1 ++ l :: loans2) =
        eclProvisionAcc store lgdOf pdOf eadOf eclOf (loans1 ++ loans2) := by
  intro loans1
  induction loans1 with
  | nil =>
    intro loans2
    show eclProvisionAcc store lgdOf pdOf eadOf eclOf (l :: loans2) =
      eclProvisionAcc store lgdOf pdOf eadOf eclOf loans2
    simp only [eclProvisionAcc, h, Bool.false_eq_true, if_false]
  | cons a t ih =>
    intro loans2
    show eclProvisionAcc store lgdOf pdOf eadOf eclOf (a :: (t ++ l :: loans2)) =
      eclProvisionAcc store lgdOf pdOf eadOf eclOf (a :: (t ++ loans2))
    simp only [eclProvisionAcc, ih]

/-- Claim C8: in both provision aggregations, a staged reference whose
loan id does not resolve in the store contributes to no category count, no
balance total, no provision amount and no averaging denominator
(`total_loans` is not incremented), and both aggregations — total
functions in this embedding — return the same result as if the reference
were absent. -/
theorem claim8_missing_reference_skipped :
    ∀ (store : List Int) (cfg : ProvisionRateConfig)
      (lgdOf pdOf eadOf eclOf : LoanStageInfo → Rat)
      (loans1 loans2 : List LoanStageInfo) (l : LoanStageInfo),
      store.contains l.loan_id = false →
      localProvisionAcc store (loans1 ++ l :: loans2) =
        localProvisionAcc store (loans1 ++ loans2) ∧
      eclProvisionAcc store lgdOf pdOf eadOf eclOf (loans1 ++ l :: loans2) =
        eclProvisionAcc store lgdOf pdOf eadOf eclOf (loans1 ++ loans2) ∧
      calculate_local_provision store cfg (loans1 ++ l :: loans2) =
        calculate_local_provision store cfg (loans1 ++ loans2) ∧
      calculate_ecl_provision store lgdOf pdOf eadOf eclOf (loans1 ++ l :: loans2) =
        calculate_ecl_provision store lgdOf pdOf eadOf eclOf (loans1 ++ loans2) := by
  intro store cfg lgdOf pdOf eadOf eclOf loans1 loans2 l h
  refine ⟨localProvisionAcc_skip store l h loans1 loans2,
    eclProvisionAcc_skip store lgdOf pdOf eadOf eclOf l h loans1 loans2, ?_, ?_⟩
  · unfold calculate_local_provision
    rw [localProvisionAcc_skip store l h loans1 loans2]
  · unfold calculate_ecl_provision
    rw [eclProvisionAcc_skip store lgdOf pdOf eadOf eclOf l h loans1 loans2]

/-- Witness for claim C8: a one-element store that does not contain the
dangling reference id 99. -/
theorem claim8_witness :
    calculate_local_provision [1] ⟨1 / 100, 5 / 100, 25 / 100, 5 / 10, 1⟩
      ([] ++ ⟨99, "Loss", 500⟩ :: []) =
      calculate_local_provision [1] ⟨1 / 100, 5 / 100, 25 / 100, 5 / 10, 1⟩ ([] ++ []) :=
  (claim8_missing_reference_skipped [1] ⟨1 / 100, 5 / 100, 25 / 100, 5 / 10, 1⟩
    (fun _ => 0) (fun _ => 0) (fun _ => 0) (fun _ => 0) [] [] ⟨99, "Loss", 500⟩
    (by decide)).2.2.1

theorem pyRound_zero (nd : Nat) : pyRound 0 nd = 0 := by
  simp [pyRound, roundHalfEven]

/-- Claim C7: provision aggregation never divides by zero — the local
aggregation reports provision percentage 0 when the total staged balance
is 0; the ECL aggregation reports, per stage, effective rate
`provision / balance` (rounded to four decimals) when the stage balance is
positive and 0 when it is 0, and provision percentage 0 when the total
staged balance is 0. -/
theorem claim7_zero_denominator_guards :
    ∀ (store : List Int) (cfg : ProvisionRateConfig)
      (lgdOf pdOf eadOf eclOf : LoanStageInfo → Rat) (loans : List LoanStageInfo),
      ((localProvisionAcc store loans).tCur + (localProvisionAcc store loans).tOlem +
          (localProvisionAcc store loans).tSub + (localProvisionAcc store loans).tDoubt +
          (localProvisionAcc store loans).tLoss = 0 →
        (calculate_local_provision store cfg loans).provision_percentage = 0) ∧
      ((eclProvisionAcc store lgdOf pdOf eadOf eclOf loans).t1 = 0 →
        (calculate_ecl_provision store lgdOf pdOf eadOf eclOf loans).stage_1.provision_rate
          = 0) ∧
      (0 < (eclProvisionAcc store lgdOf pdOf eadOf eclOf loans).t1 →
        (calculate_ecl_provision store lgdOf pdOf eadOf eclOf loans).stage_1.provision_rate
          = pyRound ((eclProvisionAcc store lgdOf pdOf eadOf eclOf loans).p1 /
              (eclProvisionAcc store lgdOf pdOf eadOf eclOf loans).t1) 4) ∧
      ((eclProvisionAcc store lgdOf pdOf eadOf eclOf loans).t2 = 0 →
        (calculate_ecl_provision store lgdOf pdOf eadOf eclOf loans).stage_2.provision_rate
          = 0) ∧
      (0 < (eclProvisionAcc store lgdOf pdOf eadOf eclOf loans).t2 →
        (calculate_ecl_provision store lgdOf pdOf eadOf eclOf loans).stage_2.provision_rate
          = pyRound ((eclProvisionAcc store lgdOf pdOf eadOf eclOf loans).p2 /
              (eclProvisionAcc store lgdOf pdOf eadOf eclOf loans).t2) 4) ∧
      ((eclProvisionAcc store lgdOf pdOf eadOf eclOf loans).t3 = 0 →
        (calculate_ecl_provision store lgdOf pdOf eadOf eclOf loans).stage_3.provision_rate
          = 0) ∧
      (0 < (eclProvisionAcc store lgdOf pdOf eadOf eclOf loans).t3 →
        (calculate_ecl_provision store lgdOf pdOf eadOf eclOf loans).stage_3.provision_rate
          = pyRound ((eclProvisionAcc store lgdOf pdOf eadOf eclOf loans).p3 /
              (eclProvisionAcc store lgdOf pdOf eadOf eclOf loans).t3) 4) ∧
      ((eclProvisionAcc store lgdOf pdOf eadOf eclOf loans).t1 +
          (eclProvisionAcc store lgdOf pdOf eadOf eclOf loans).t2 +
          (eclProvisionAcc store lgdOf pdOf eadOf eclOf loans).t3 = 0 →
        (calculate_ecl_provision store lgdOf pdOf eadOf
            eclOf loans).summary_metrics.provision_percentage = 0) := by
  intro store cfg lgdOf pdOf eadOf eclOf loans
  refine ⟨?_, ?_, ?_, ?_, ?_, ?_, ?_, ?_⟩
  · intro h
    unfold calculate_local_provision
    simp only []
    rw [h, if_neg (lt_irrefl 0), pyRound_zero]
  · intro h
    unfold calculate_ecl_provision
    simp only []
    rw [h, if_neg (lt_irrefl 0), pyRound_zero]
  · intro h
    unfold calculate_ecl_provision
    simp only []
    rw [if_pos h]
  · intro h
    unfold calculate_ecl_provision
    simp only []
    rw [h, if_neg (lt_irrefl 0), pyRound_zero]
  · intro h
    unfold calculate_ecl_provision
    simp only []
    rw [if_pos h]
  · intro h
    unfold calculate_ecl_provision
    simp only []
    rw [h, if_neg (lt_irrefl 0), pyRound_zero]
  · intro h
    unfold calculate_ecl_provision
    simp only []
    rw [if_pos h]
  · intro h
    unfold calculate_ecl_provision
    simp only []
    rw [h, if_neg (lt_irrefl 0), pyRound_zero]

/-- Witness for claim C7: the empty staged population has total balance 0
in both aggregations, and both report percentage and rates 0. -/
theorem claim7_witness :
    (calculate_local_provision [] ⟨1 / 100, 5 / 100, 25 / 100, 5 / 10, 1⟩
        []).provision_percentage = 0 ∧
    (calculate_ecl_provision [] (fun _ => 0) (fun _ => 0) (fun _ => 0) (fun _ => 0)
        []).stage_1.provision_rate = 0 ∧
    (calculate_ecl_provision [] (fun _ => 0) (fun _ => 0) (fun _ => 0) (fun _ => 0)
        []).summary_metrics.provision_percentage = 0 :=
  ⟨(claim7_zero_denominator_guards [] ⟨1 / 100, 5 / 100, 25 / 100, 5 / 10, 1⟩
      (fun _ => 0) (fun _ => 0) (fun _ => 0) (fun _ => 0) []).1
      (by simp [localProvisionAcc]),
    (claim7_zero_denominator_guards [] ⟨1 / 100, 5 / 100, 25 / 100, 5 / 10, 1⟩
      (fun _ => 0) (fun _ => 0) (fun _ => 0) (fun _ => 0) []).2.1
      (by simp [eclProvisionAcc]),
    (claim7_zero_denominator_guards [] ⟨1 / 100, 5 / 100, 25 / 100, 5 / 10, 1⟩
      (fun _ => 0) (fun _ => 0) (fun _ => 0) (fun _ => 0)
      []).2.2.2.2.2.2.2 (by simp [eclProvisionAcc])⟩

theorem categoryTotal_nil (store : List Int) (cat : String) :
    categoryTotal store [] cat = 0 := rfl

theorem categoryCount_nil (store : List Int) (cat : String) :
    categoryCount store [] cat = 0 := rfl

theorem categoryTotal_cons (store : List Int) (l : LoanStageInfo)
    (rest : List LoanStageInfo) (cat : String) :
    categoryTotal store (l :: rest) cat =
      if store.contains l.loan_id = true ∧ pyLower l.stage.data = cat.data then
        l.outstanding_loan_balance + categoryTotal store rest cat
      else categoryTotal store rest cat := by
  by_cases c1 : l.loan_id ∈ store
  · by_cases c2 : pyLower l.stage.data = cat.data
    · simp [categoryTotal, List.filter_cons, c1, c2]
    · simp [categoryTotal, List.filter_cons, c1, c2]
  · simp [categoryTotal, List.filter_cons, c1]

theorem categoryCount_cons (store : List Int) (l : LoanStageInfo)
    (rest : List LoanStageInfo) (cat : String) :
    categoryCount store (l :: rest) cat =
      if store.contains l.loan_id = true ∧ pyLower l.stage.data = cat.data then
        categoryCount store rest cat + 1
      else categoryCount store rest cat := by
  by_cases c1 : l.loan_id ∈ store
  · by_cases c2 : pyLower l.stage.data = cat.data
    · simp [categoryCount, List.filter_cons, c1, c2]
    · simp [categoryCount, List.filter_cons, c1, c2]
  · simp [categoryCount, List.filter_cons, c1]

theorem localProvisionAcc_eq (store : List Int) (loans : List LoanStageInfo) :
    localProvisionAcc store loans =
      { cCur := categoryCount store loans "current"
        cOlem := categoryCount store loans "olem"
        cSub := categoryCount store loans "substandard"
        cDoubt := categoryCount store loans "doubtful"
        cLoss := categoryCount store loans "loss"
        tCur := categoryTotal store loans "current"
        tOlem := categoryTotal store loans "olem"
        tSub := categoryTotal store loans "substandard"
        tDoubt := categoryTotal store loans "doubtful"
        tLoss := categoryTotal store loans "loss" } := by
  induction loans with
  | nil => rfl
  | cons l rest ih =>
    rw [categoryCount_cons store l rest "current", categoryCount_cons store l rest "olem",
      categoryCount_cons store l rest "substandard",
      categoryCount_cons store l rest "doubtful", categoryCount_cons store l rest "loss",
      categoryTotal_cons store l rest "current", categoryTotal_cons store l rest "olem",
      categoryTotal_cons store l rest "substandard",
      categoryTotal_cons store l rest "doubtful", categoryTotal_cons store l rest "loss"]
    simp only [localProvisionAcc]
    rw [ih]
    by_cases c1 : l.loan_id ∈ store
    · by_cases h1 : pyLower l.stage.data = "current".data
      · have n2 : pyLower l.stage.data ≠ "olem".data := by rw [h1]; decide
        have n3 : pyLower l.stage.data ≠ "substandard".data := by rw [h1]; decide
        have n4 : pyLower l.stage.data ≠ "doubtful".data := by rw [h1]; decide
        have n5 : pyLower l.stage.data ≠ "loss".data := by rw [h1]; decide
        simp [c1, h1, n2, n3, n4, n5]
      · by_cases h2 : pyLower l.stage.data = "olem".data
        · have n3 : pyLower l.stage.data ≠ "substandard".data := by rw [h2]; decide
          have n4 : pyLower l.stage.data ≠ "doubtful".data := by rw [h2]; decide
          have n5 : pyLower l.stage.data ≠ "loss".data := by rw [h2]; decide
          simp [c1, h1, h2, n3, n4, n5]
        · by_cases h3 : pyLower l.stage.data = "substandard".data
          · have n4 : pyLower l.stage.data ≠ "doubtful".data := by rw [h3]; decide
            have n5 : pyLower l.stage.data ≠ "loss".data := by rw [h3]; decide
            simp [c1, h1, h2, h3, n4, n5]
          · by_cases h4 : pyLower l.stage.data = "doubtful".data
            · have n5 : pyLower l.stage.data ≠ "loss".data := by rw [h4]; decide
              simp [c1, h1, h2, h3, h4, n5]
            · by_cases h5 : pyLower l.stage.data = "loss".data
              · simp [c1, h1, h2, h3, h4, h5]
              · simp [c1, h1, h2, h3, h4, h5]
    · simp [c1]

/-- The worked local-impairment example of the specification: five
resolvable staged loans, one per category. -/
def exampleStagedLoans : List LoanStageInfo :=
  [⟨1, "Current", 1000⟩, ⟨2, "OLEM", 200⟩, ⟨3, "Substandard", 100⟩,
    ⟨4, "Doubtful", 50⟩, ⟨5, "Loss", 20⟩]

/-- The example rate configuration 1%, 5%, 25%, 50%, 100%. -/
def exampleRates : ProvisionRateConfig :=
  ⟨1 / 100, 5 / 100, 25 / 100, 5 / 10, 1⟩

theorem example_acc_eval :
    localProvisionAcc [1, 2, 3, 4, 5] exampleStagedLoans =
      { cCur := 1, cOlem := 1, cSub := 1, cDoubt := 1, cLoss := 1,
        tCur := 1000, tOlem := 200, tSub := 100, tDoubt := 50, tLoss := 20 } := by
  have e1 : pyLower "Current".data = "current".data := by decide
  have e2 : pyLower "OLEM".data = "olem".data := by decide
  have e3 : pyLower "Substandard".data = "substandard".data := by decide
  have e4 : pyLower "Doubtful".data = "doubtful".data := by decide
  have e5 : pyLower "Loss".data = "loss".data := by decide
  have n21 : "olem".data ≠ "current".data := by decide
  have n31 : "substandard".data ≠ "current".data := by decide
  have n32 : "substandard".data ≠ "olem".data := by decide
  have n41 : "doubtful".data ≠ "current".data := by decide
  have n42 : "doubtful".data ≠ "olem".data := by decide
  have n43 : "doubtful".data ≠ "substandard".data := by decide
  have n51 : "loss".data ≠ "current".data := by decide
  have n52 : "loss".data ≠ "olem".data := by decide
  have n53 : "loss".data ≠ "substandard".data := by decide
  have n54 : "loss".data ≠ "doubtful".data := by decide
  have m1 : (1 : Int) ∈ ([1, 2, 3, 4, 5] : List Int) := by decide
  have m2 : (2 : Int) ∈ ([1, 2, 3, 4, 5] : List Int) := by decide
  have m3 : (3 : Int) ∈ ([1, 2, 3, 4, 5] : List Int) := by decide
  have m4 : (4 : Int) ∈ ([1, 2, 3, 4, 5] : List Int) := by decide
  have m5 : (5 : Int) ∈ ([1, 2, 3, 4, 5] : List Int) := by decide
  norm_num [exampleStagedLoans, localProvisionAcc, e1, e2, e3, e4, e5,
    n21, n31, n32, n41, n42, n43, n51, n52, n53, n54, m1, m2, m3, m4, m5]

/-- Claim C6: `calculate_local_provision` reports, per category, the
provision `balance total × configured rate` (rounded to two decimals), the
total provision as the rounded sum of the five unrounded provisions, and
the provision percentage `total provision / total staged value × 100`
(rounded to one decimal, 0 when the total staged value is not positive);
on the worked example with balances 1000, 200, 100, 50, 20 and rates 1%,
5%, 25%, 50%, 100% it reports provisions 10, 10, 25, 25, 20, total 90 and
percentage 6.6. -/
theorem claim6_local_provision_formula :
    (∀ (store : List Int) (cfg : ProvisionRateConfig) (loans : List LoanStageInfo),
      (calculate_local_provision store cfg loans).current.provision_amount =
        pyRound (categoryTotal store loans "current" * cfg.current) 2 ∧
      (calculate_local_provision store cfg loans).olem.provision_amount =
        pyRound (categoryTotal store loans "olem" * cfg.olem) 2 ∧
      (calculate_local_provision store cfg loans).substandard.provision_amount =
        pyRound (categoryTotal store loans "substandard" * cfg.substandard) 2 ∧
      (calculate_local_provision store cfg loans).doubtful.provision_amount =
        pyRound (categoryTotal store loans "doubtful" * cfg.doubtful) 2 ∧
      (calculate_local_provision store cfg loans).loss.provision_amount =
        pyRound (categoryTotal store loans "loss" * cfg.loss) 2 ∧
      (calculate_local_provision store cfg loans).total_provision =
        pyRound (categoryTotal store loans "current" * cfg.current +
          categoryTotal store loans "olem" * cfg.olem +
          categoryTotal store loans "substandard" * cfg.substandard +
          categoryTotal store loans "doubtful" * cfg.doubtful +
          categoryTotal store loans "loss" * cfg.loss) 2 ∧
      (calculate_local_provision store cfg loans).provision_percentage =
        pyRound (if 0 < categoryTotal store loans "current" +
              categoryTotal store loans "olem" + categoryTotal store loans "substandard" +
              categoryTotal store loans "doubtful" + categoryTotal store loans "loss" then
            (categoryTotal store loans "current" * cfg.current +
              categoryTotal store loans "olem" * cfg.olem +
              categoryTotal store loans "substandard" * cfg.substandard +
              categoryTotal store loans "doubtful" * cfg.doubtful +
              categoryTotal store loans "loss" * cfg.loss) /
              (categoryTotal store loans "current" + categoryTotal store loans "olem" +
                categoryTotal store loans "substandard" +
                categoryTotal store loans "doubtful" +
                categoryTotal store loans "loss") * 100
          else 0) 1) ∧
    ((calculate_local_provision [1, 2, 3, 4, 5] exampleRates
        exampleStagedLoans).current.provision_amount = 10 ∧
      (calculate_local_provision [1, 2, 3, 4, 5] exampleRates
        exampleStagedLoans).olem.provision_amount = 10 ∧
      (calculate_local_provision [1, 2, 3, 4, 5] exampleRates
        exampleStagedLoans).substandard.provision_amount = 25 ∧
      (calculate_local_provision [1, 2, 3, 4, 5] exampleRates
        exampleStagedLoans).doubtful.provision_amount = 25 ∧
      (calculate_local_provision [1, 2, 3, 4, 5] exampleRates
        exampleStagedLoans).loss.provision_amount = 20 ∧
      (calculate_local_provision [1, 2, 3, 4, 5] exampleRates
        exampleStagedLoans).total_provision = 90 ∧
      (calculate_local_provision [1, 2, 3, 4, 5] exampleRates
        exampleStagedLoans).provision_percentage = 66 / 10) := by
  constructor
  · intro store cfg loans
    unfold calculate_local_provision
    rw [localProvisionAcc_eq]
    exact ⟨rfl, rfl, rfl, rfl, rfl, rfl, rfl⟩
  · refine ⟨?_, ?_, ?_, ?_, ?_, ?_, ?_⟩ <;>
      · unfold calculate_local_provision
        rw [example_acc_eval]
        norm_num [exampleRates, pyRound, roundHalfEven]

end IFRS9
